import Mathlib

/-!
Verification of the real-time signal-pipeline core of the cyber-cognito-learn
repository: sampling, ring-buffered history, threshold classification,
dataset replay, and inference fallback handling.

Numeric signal values (JavaScript numbers) are modelled as rationals: every
operation the pipeline performs on them (addition, multiplication by
constants, comparison against integer thresholds, `Math.min`/`Math.max`
clamping, `Math.floor`) is exact on the inputs considered here, so `ℚ` is a
faithful shallow embedding.  Calls to `Math.random()` and `Math.sin(...)` are
modelled as explicit rational-valued inputs (a random draw `r` satisfies
`0 ≤ r < 1`); asynchronous inference calls are modelled by passing their
resolved outcome as an `Except` value.
-/

namespace CyberCognito

/-- A multi-channel EEG sample: the `EEGData` record of
`src/src/components/EEGSimulator.tsx` (also `src/unnamed/part_000`). -/
structure EEGData where
  attention : ℚ
  relaxation : ℚ
  drowsiness : ℚ
  engagement : ℚ
deriving Repr, DecidableEq

/-- A classification result: the `BrainState` record (label plus display
color) of `src/src/components/EEGSimulator.tsx`. -/
structure BrainState where
  label : String
  color : String
deriving Repr, DecidableEq

/-- All four channels of a sample lie within the `[0, 100]` band. -/
def inBounds (d : EEGData) : Prop :=
  0 ≤ d.attention ∧ d.attention ≤ 100 ∧
  0 ≤ d.relaxation ∧ d.relaxation ≤ 100 ∧
  0 ≤ d.drowsiness ∧ d.drowsiness ≤ 100 ∧
  0 ≤ d.engagement ∧ d.engagement ≤ 100

instance (d : EEGData) : Decidable (inBounds d) := by
  unfold inBounds; infer_instance

namespace EEGSimulator

/-- `determineBrainState` from `src/src/components/EEGSimulator.tsx`
(lines 51-67): ordered threshold rules, first match wins, drowsiness rule
first. -/
def determineBrainState (data : EEGData) : BrainState :=
  if data.drowsiness > 70 then { label := "Drowsy", color := "#9370DB" }
  else if data.attention > 70 then { label := "Highly Focused", color := "#FF4500" }
  else if data.relaxation > 70 then { label := "Relaxed", color := "#4169E1" }
  else if data.engagement > 70 then { label := "Engaged", color := "#32CD32" }
  else if data.attention > 50 then { label := "Focused", color := "#FFA500" }
  else if data.relaxation > 50 then { label := "Calm", color := "#87CEEB" }
  else { label := "Neutral", color := "#808080" }

/-- `generateEEGValue` from `src/src/components/EEGSimulator.tsx`
(lines 70-75).  The source computes
`noise = (Math.random() - 0.5) * 15`, `wave = Math.sin(time * frequency) * 10`,
`slowWave = Math.sin(time * 0.05) * 20` and returns
`Math.max(0, Math.min(100, baseValue + wave + slowWave + noise))`.
The two sine evaluations and the random draw are modelled as the inputs
`sinWave`, `sinSlow` and `rand`. -/
def generateEEGValue (baseValue sinWave sinSlow rand : ℚ) : ℚ :=
  let noise := (rand - 1/2) * 15
  let wave := sinWave * 10
  let slowWave := sinSlow * 20
  max 0 (min 100 (baseValue + wave + slowWave + noise))

/-- One push into a per-channel history buffer, as performed by the `animate`
loop of `src/src/components/EEGSimulator.tsx` (lines 156-163) and the tick
handler of `src/unnamed/part_000` (lines 209-214): `buffer.push(v)` followed
by `buffer.shift()` whenever the length exceeds the capacity. -/
def pushBuffer (cap : ℕ) (buffer : List ℚ) (v : ℚ) : List ℚ :=
  if (buffer ++ [v]).length > cap then (buffer ++ [v]).tail else buffer ++ [v]

/-- Pushing a whole sequence of values into an initially empty buffer. -/
def runPushes (cap : ℕ) (vs : List ℚ) : List ℚ :=
  vs.foldl (pushBuffer cap) []

/-- The four per-channel history buffers (`dataBuffers` in
`src/src/components/EEGSimulator.tsx` and `src/unnamed/part_000`). -/
structure Buffers where
  attention : List ℚ
  relaxation : List ℚ
  drowsiness : List ℚ
  engagement : List ℚ
deriving Repr, DecidableEq

/-- Pushing one sample into all four channel buffers, as the
`Object.keys(dataBuffers.current).forEach` loop does on every tick. -/
def pushAll (cap : ℕ) (b : Buffers) (d : EEGData) : Buffers :=
  { attention := pushBuffer cap b.attention d.attention
    relaxation := pushBuffer cap b.relaxation d.relaxation
    drowsiness := pushBuffer cap b.drowsiness d.drowsiness
    engagement := pushBuffer cap b.engagement d.engagement }

/-- The component state of `src/src/components/EEGSimulator.tsx`: the
`isRunning`, `eegData` and `brainState` React state plus the
`dataBuffers` ref. -/
structure SimulatorState where
  isRunning : Bool
  eegData : EEGData
  brainState : BrainState
  buffers : Buffers
deriving Repr, DecidableEq

/-- The `useState` initial values of `src/src/components/EEGSimulator.tsx`
(lines 17-27, 36-46). -/
def initialState : SimulatorState :=
  { isRunning := false
    eegData := { attention := 50, relaxation := 50, drowsiness := 20, engagement := 50 }
    brainState := { label := "Neutral", color := "#808080" }
    buffers := { attention := [], relaxation := [], drowsiness := [], engagement := [] } }

/-- `maxBufferLength` from the animation loop of
`src/src/components/EEGSimulator.tsx` (line 143). -/
def maxBufferLength : ℕ := 200

/-- One step of the `animate` loop of `src/src/components/EEGSimulator.tsx`
(lines 145-196): generates a new sample with `generateEEGValue` per channel,
pushes it into every channel buffer (capacity `maxBufferLength`), and updates
`eegData` and `brainState`.  The per-channel sine evaluations, the shared
slow-wave sine and the four random draws are passed in explicitly. -/
def animate (s : SimulatorState) (sinA sinR sinD sinE sinSlow rA rR rD rE : ℚ) :
    SimulatorState :=
  let newData : EEGData :=
    { attention := generateEEGValue s.eegData.attention sinA sinSlow rA
      relaxation := generateEEGValue s.eegData.relaxation sinR sinSlow rR
      drowsiness := generateEEGValue s.eegData.drowsiness sinD sinSlow rD
      engagement := generateEEGValue s.eegData.engagement sinE sinSlow rE }
  { s with eegData := newData
           brainState := determineBrainState newData
           buffers := pushAll maxBufferLength s.buffers newData }

/-- `toggleSimulation` from `src/src/components/EEGSimulator.tsx`
(lines 207-209): only flips `isRunning`; it touches neither `eegData`,
`brainState` nor the buffers. -/
def toggleSimulation (s : SimulatorState) : SimulatorState :=
  { s with isRunning := !s.isRunning }

/-- `resetSimulation` from `src/src/components/EEGSimulator.tsx`
(lines 211-224): stops the run, empties every buffer and restores the
neutral defaults. -/
def resetSimulation (_s : SimulatorState) : SimulatorState :=
  { isRunning := false
    eegData := { attention := 50, relaxation := 50, drowsiness := 20, engagement := 50 }
    brainState := { label := "Neutral", color := "#808080" }
    buffers := { attention := [], relaxation := [], drowsiness := [], engagement := [] } }

end EEGSimulator

namespace DatasetEEG

/-- A decoded dataset row from `src/unnamed/part_000` (`DatasetRow`,
lines 16-22): the four channels plus an optional timestamp. -/
structure DatasetRow where
  attention : ℚ
  relaxation : ℚ
  drowsiness : ℚ
  engagement : ℚ
  timestamp : Option ℚ
deriving Repr, DecidableEq

/-- Placeholder row used only as the `getD` default; a live cursor always
stays below `rows.length`. -/
def defaultRow : DatasetRow :=
  { attention := 0, relaxation := 0, drowsiness := 0, engagement := 0, timestamp := none }

/-- The sample built from a dataset row by the dataset branch of the tick
handler of `src/unnamed/part_000` (lines 193-199): the four channel values
are taken over verbatim, with no clamping or range check. -/
def ofRow (r : DatasetRow) : EEGData :=
  { attention := r.attention, relaxation := r.relaxation,
    drowsiness := r.drowsiness, engagement := r.engagement }

/-- A CSV line as decoded by `handleFileUpload` of `src/unnamed/part_000`
(lines 81-101): each of the five recognised columns either parsed to a
number or is missing/NaN. -/
structure ParsedRow where
  attention : Option ℚ
  relaxation : Option ℚ
  drowsiness : Option ℚ
  engagement : Option ℚ
  timestamp : Option ℚ
deriving Repr, DecidableEq

/-- The row filter of `handleFileUpload` (lines 92-101 of
`src/unnamed/part_000`): a row is kept iff all four channel fields parsed to
numbers; the values themselves are not range-checked. -/
def acceptRow (r : ParsedRow) : Option DatasetRow :=
  match r.attention, r.relaxation, r.drowsiness, r.engagement with
  | some a, some rl, some d, some e =>
      some { attention := a, relaxation := rl, drowsiness := d, engagement := e,
             timestamp := r.timestamp }
  | _, _, _, _ => none

/-- `determineBrainState` from `src/unnamed/part_000` (lines 145-152).
Note the rule order of this variant: `attention > 70` is checked first and
`drowsiness > 60` only third. -/
def determineBrainState (data : EEGData) : BrainState :=
  if data.attention > 70 then { label := "Highly Focused", color := "#FF6B6B" }
  else if data.relaxation > 70 then { label := "Deeply Relaxed", color := "#4ECDC4" }
  else if data.drowsiness > 60 then { label := "Drowsy", color := "#95E1D3" }
  else if data.engagement > 70 then { label := "Engaged", color := "#FFD93D" }
  else if data.attention > 50 ∧ data.engagement > 50 then
    { label := "Active Learning", color := "#F38181" }
  else { label := "Neutral", color := "#808080" }

/-- `generateRandomEEG` from `src/unnamed/part_000` (lines 135-143): each
channel is the previous value plus `(Math.random() - 0.5) * 10`, clamped by
`Math.max(0, Math.min(100, ...))`.  The four random draws are the inputs
`r1`-`r4`. -/
def generateRandomEEG (prev : EEGData) (r1 r2 r3 r4 : ℚ) : EEGData :=
  { attention := max 0 (min 100 (prev.attention + (r1 - 1/2) * 10))
    relaxation := max 0 (min 100 (prev.relaxation + (r2 - 1/2) * 10))
    drowsiness := max 0 (min 100 (prev.drowsiness + (r3 - 1/2) * 10))
    engagement := max 0 (min 100 (prev.engagement + (r4 - 1/2) * 10)) }

/-- The dataset branch of the tick handler of `src/unnamed/part_000`
(lines 191-200): read `uploadedDataset[datasetIndex]` into the new sample,
then advance the cursor to `(datasetIndex + 1) % uploadedDataset.length`. -/
def datasetStep (rows : List DatasetRow) (cursor : ℕ) : EEGData × ℕ :=
  (ofRow (rows.getD cursor defaultRow), (cursor + 1) % rows.length)

/-- The cursor value before the `(n+1)`-st dataset tick, starting from the
initial cursor `0` and advancing by `(c + 1) % len` on every tick. -/
def cursorAfter (len : ℕ) : ℕ → ℕ
  | 0 => 0
  | n + 1 => (cursorAfter len n + 1) % len

/-- The two source modes of `src/unnamed/part_000` (line 41). -/
inductive Mode where
  | simulated
  | dataset
deriving Repr, DecidableEq

/-- Mode switching as done by `setMode(mode === 'simulated' ? 'dataset' : 'simulated')`. -/
def flipMode : Mode → Mode
  | Mode.simulated => Mode.dataset
  | Mode.dataset => Mode.simulated

/-- The component state of `src/unnamed/part_000` that `toggleMode` can
observe: running flag, mode, dataset cursor, uploaded rows, latest sample
and label, and the channel buffers. -/
structure DatasetSimState where
  isRunning : Bool
  mode : Mode
  datasetIndex : ℕ
  uploadedDataset : List DatasetRow
  eegData : EEGData
  brainState : BrainState
  buffers : EEGSimulator.Buffers
deriving Repr, DecidableEq

/-- `toggleMode` from `src/unnamed/part_000` (lines 128-133): when a
non-empty dataset is loaded it flips the mode and resets the cursor to `0`;
it performs no other update — in particular the channel buffers are left
untouched. -/
def toggleMode (s : DatasetSimState) : DatasetSimState :=
  if 0 < s.uploadedDataset.length then
    { s with mode := flipMode s.mode, datasetIndex := 0 }
  else s

/-- A concrete reachable state of `src/unnamed/part_000`: a one-row dataset
has been uploaded, the simulation has been running in simulated mode, and
the attention buffer holds one value. -/
def sampleDatasetState : DatasetSimState :=
  { isRunning := true
    mode := Mode.simulated
    datasetIndex := 0
    uploadedDataset := [defaultRow]
    eegData := { attention := 50, relaxation := 50, drowsiness := 20, engagement := 50 }
    brainState := { label := "Neutral", color := "#808080" }
    buffers := { attention := [42], relaxation := [], drowsiness := [], engagement := [] } }

end DatasetEEG

/-- `Math.floor(Math.random() * 30) + 70`, the fallback engagement score
used by `src/unnamed/part_004` (line 99), `src/unnamed/part_002` (line 91)
and `src/src/components/CameraEmotionAnalyzer.tsx` (line 63).  The random
draw `r` satisfies `0 ≤ r < 1`; `Math.floor` yields an integer, hence the
`ℤ` result. -/
def fallbackEngagement (r : ℚ) : ℤ := ⌊r * 30⌋ + 70

/-- `Math.floor(Math.random() * 20) + 80`, the fallback attention score used
at the same three sites. -/
def fallbackAttention (r : ℚ) : ℤ := ⌊r * 20⌋ + 80

namespace Camera

/-- The observable state of `src/src/components/CameraEmotionAnalyzer.tsx`:
`isActive`, `emotion`, `engagement`, `attention` (lines 9-12). -/
structure CameraState where
  isActive : Bool
  emotion : String
  engagement : ℤ
  attention : ℤ
deriving Repr, DecidableEq

/-- `stopCamera` from `src/src/components/CameraEmotionAnalyzer.tsx`
(lines 44-56): releases the stream and then resets `isActive` to `false`,
`emotion` to `'neutral'`, and `engagement`/`attention` to `0`. -/
def stopCamera (_s : CameraState) : CameraState :=
  { isActive := false, emotion := "neutral", engagement := 0, attention := 0 }

/-- The emotion list of `startEmotionSimulation` in
`src/src/components/CameraEmotionAnalyzer.tsx` (line 59). -/
def simEmotions : List String := ["focused", "happy", "neutral", "engaged", "curious"]

/-- One firing of the `startEmotionSimulation` interval of
`src/src/components/CameraEmotionAnalyzer.tsx` (lines 58-69): when the
stream is still active it draws a random emotion and fresh fallback
engagement/attention scores. -/
def startEmotionSimulationTick (s : CameraState) (streamActive : Bool)
    (emoIdx : ℕ) (r1 r2 : ℚ) : CameraState :=
  if streamActive then
    { s with emotion := simEmotions.getD (emoIdx % simEmotions.length) "neutral"
             engagement := fallbackEngagement r1
             attention := fallbackAttention r2 }
  else s

end Camera

namespace EmotionDetection

/-- The result record of `detectFacialEmotion` in `src/unnamed/part_004`
(lines 87-92). -/
structure FacialDetection where
  emotion : String
  confidence : ℚ
  engagement : ℤ
  attention : ℤ
deriving Repr, DecidableEq

/-- The fallback emotion list of `detectFacialEmotion`
(`src/unnamed/part_004`, line 95). -/
def fallbackEmotions : List String :=
  ["happy", "sad", "angry", "neutral", "surprised", "fearful"]

/-- The `engagementMap` lookup with `|| 70` default
(`src/unnamed/part_004`, lines 118-120, 128). -/
def engagementMap (label : String) : ℤ :=
  if label = "happy" then 85
  else if label = "surprised" then 90
  else if label = "angry" then 75
  else if label = "neutral" then 70
  else if label = "sad" then 50
  else if label = "fearful" then 60
  else 70

/-- The `attentionMap` lookup with `|| 75` default
(`src/unnamed/part_004`, lines 121-123, 129). -/
def attentionMap (label : String) : ℤ :=
  if label = "happy" then 80
  else if label = "surprised" then 95
  else if label = "angry" then 85
  else if label = "neutral" then 75
  else if label = "sad" then 60
  else if label = "fearful" then 70
  else 75

/-- `detectFacialEmotion` from `src/unnamed/part_004` (lines 87-140).
`modelLoaded` is whether `facialModel` is non-null; `emoIdx`, `rConf`,
`rEng`, `rAtt` model the `Math.random()` draws of the fallback branch; the
resolved outcome of the awaited `facialModel(canvas)` call is passed as
`callOutcome` (the top label and its score on success).  The source wraps
the model call in try/catch and returns a neutral default from the catch
block, so the function always returns a result and never propagates an
error; the model is therefore a total function into `FacialDetection`. -/
def detectFacialEmotion (modelLoaded : Bool) (emoIdx : ℕ) (rConf rEng rAtt : ℚ)
    (callOutcome : Except Unit (String × ℚ)) : FacialDetection :=
  if modelLoaded = false then
    { emotion := fallbackEmotions.getD (emoIdx % fallbackEmotions.length) "neutral"
      confidence := rConf * (3/10) + 7/10
      engagement := fallbackEngagement rEng
      attention := fallbackAttention rAtt }
  else
    match callOutcome with
    | Except.ok (label, score) =>
        { emotion := label, confidence := score,
          engagement := engagementMap label, attention := attentionMap label }
    | Except.error _ =>
        { emotion := "neutral", confidence := 1/2, engagement := 70, attention := 75 }

/-- The three ways `initModels` of `src/unnamed/part_004` (lines 21-85) can
end: WebGPU load succeeds, the CPU fallback succeeds, or both attempts
fail. -/
inductive InitOutcome where
  | webgpu
  | cpuFallback
  | failed
deriving Repr, DecidableEq

/-- A toast notification (title and whether it uses the destructive
variant). -/
structure Toast where
  title : String
  isDestructive : Bool
deriving Repr, DecidableEq

/-- The toasts emitted by one run of `initModels` (`src/unnamed/part_004`,
lines 46-49, 68-71, 75-79).  `initModels` runs once per mount (guarded by
`initRef`), so a model-loading failure produces this toast exactly once. -/
def initModelToasts : InitOutcome → List Toast
  | InitOutcome.webgpu => [{ title := "AI Models Ready", isDestructive := false }]
  | InitOutcome.cpuFallback => [{ title := "AI Models Ready (CPU Mode)", isDestructive := false }]
  | InitOutcome.failed => [{ title := "Model Loading Failed", isDestructive := true }]

/-- The fallback emotion list of `analyzeFrame` in `src/unnamed/part_002`
(line 89). -/
def simFallbackEmotions : List String :=
  ["happy", "sad", "angry", "neutral", "surprised"]

/-- `analyzeFrame` from `src/unnamed/part_002` (lines 75-102): the body of
one analysis tick.  It returns the new `(emotion, engagement, attention)`
triple (or `none` when the video/stream refs are gone) together with the
toasts it emits.  The whole body is wrapped in try/catch whose catch block
only logs, so no branch emits a toast and no error escapes to the interval
scheduler. -/
def analyzeFrame (hasStream useAI modelsReady modelLoaded : Bool) (emoIdx : ℕ)
    (rConf rEng rAtt : ℚ) (callOutcome : Except Unit (String × ℚ))
    (fbIdx : ℕ) (f1 f2 : ℚ) : Option (String × ℤ × ℤ) × List Toast :=
  if hasStream = false then (none, [])
  else if useAI ∧ modelsReady then
    let r := detectFacialEmotion modelLoaded emoIdx rConf rEng rAtt callOutcome
    (some (r.emotion, r.engagement, r.attention), [])
  else
    (some (simFallbackEmotions.getD (fbIdx % simFallbackEmotions.length) "neutral",
           fallbackEngagement f1, fallbackAttention f2), [])

/-- The scheduling state of the analysis loop: whether the stream is active,
whether AI detection is enabled (`useAI && modelsReady`), and how many
inference calls are currently in flight. -/
structure SchedState where
  streamActive : Bool
  aiActive : Bool
  pending : ℕ
deriving Repr, DecidableEq

/-- One firing of the `setInterval(analyzeFrame, 2000)` timer installed by
`startEmotionAnalysis` (`src/unnamed/part_002`, lines 104-107; likewise the
1000 ms interval of `startEmotionDetection` in
`src/src/components/CameraEmotionAnalyzer.tsx`, lines 307-334).
`setInterval` invokes its async callback on every period without awaiting
the previous invocation's promise, and the callback contains no in-flight
check: whenever the stream refs are set and AI detection is active it starts
a new awaited `detectFacialEmotion` call unconditionally.  So each firing
adds one call to the in-flight set, never skipping. -/
def tickFire (s : SchedState) : SchedState :=
  if s.streamActive ∧ s.aiActive then { s with pending := s.pending + 1 } else s

/-- Resolution of one in-flight inference call. -/
def resolveCall (s : SchedState) : SchedState :=
  { s with pending := s.pending - 1 }

end EmotionDetection

/-! ## Helper lemmas -/

/-- The `Math.max(0, Math.min(100, x))` clamp always lands in `[0, 100]`. -/
theorem clamp_bounds (x : ℚ) : 0 ≤ max 0 (min 100 x) ∧ max 0 (min 100 x) ≤ 100 :=
  ⟨le_max_left 0 _, max_le (by norm_num) (min_le_left _ _)⟩

/-- Closed form of the push loop: starting from an empty buffer, a sequence
of bounded pushes retains exactly the most recent `cap` values. -/
theorem runPushes_eq_drop (cap : ℕ) (vs : List ℚ) :
    EEGSimulator.runPushes cap vs = vs.drop (vs.length - cap) := by
  induction vs using List.reverseRecOn with
  | nil => simp [EEGSimulator.runPushes]
  | append_singleton xs x ih =>
    have hfold : EEGSimulator.runPushes cap (xs ++ [x])
        = EEGSimulator.pushBuffer cap (EEGSimulator.runPushes cap xs) x := by
      simp [EEGSimulator.runPushes, List.foldl_append]
    rw [hfold, ih]
    by_cases hlt : xs.length < cap
    · have h0 : xs.length - cap = 0 := by omega
      rw [h0, List.drop_zero]
      unfold EEGSimulator.pushBuffer
      rw [if_neg (by simp; omega)]
      have h1 : (xs ++ [x]).length - cap = 0 := by simp; omega
      rw [h1, List.drop_zero]
    · have hge : cap ≤ xs.length := by omega
      have hdlen : (xs.drop (xs.length - cap)).length = cap := by
        rw [List.length_drop]; omega
      unfold EEGSimulator.pushBuffer
      rw [if_pos (by simp [hdlen])]
      have h2 : (xs ++ [x]).length - cap = (xs.length - cap) + 1 := by simp; omega
      rw [h2, ← List.drop_drop, List.drop_append_of_le_length (Nat.sub_le _ _),
        List.drop_one]

/-! ## Claims -/

/-- C1.  The claim as frozen is refuted by the `determineBrainState` variant
of `src/unnamed/part_000`: at the claim's own example `drowsiness = 80`,
`attention = 90`, that variant checks `attention > 70` first and returns
`Highly Focused`, not `Drowsy`. -/
theorem c1_counterexample :
    DatasetEEG.determineBrainState
        { attention := 90, relaxation := 50, drowsiness := 80, engagement := 50 }
      = { label := "Highly Focused", color := "#FF6B6B" } ∧
    ("Highly Focused" : String) ≠ "Drowsy" := by
  exact ⟨by decide, by decide⟩

/-- C1 (amended).  Both classifier variants evaluate their rules in
declaration order and stop at the first match, but only the variant in
`src/src/components/EEGSimulator.tsx` checks the drowsiness rule before any
attention rule: for every sample with `drowsiness > 70` and `attention > 70`
it returns `Drowsy`, while the variant in `src/unnamed/part_000` checks
`attention > 70` first and returns `Highly Focused` on the same sample. -/
theorem c1_rule_order_amended (d : EEGData)
    (h1 : 70 < d.drowsiness) (h2 : 70 < d.attention) :
    (EEGSimulator.determineBrainState d).label = "Drowsy" ∧
    (DatasetEEG.determineBrainState d).label = "Highly Focused" := by
  constructor
  · unfold EEGSimulator.determineBrainState
    rw [if_pos h1]
  · unfold DatasetEEG.determineBrainState
    rw [if_pos h2]

/-- C1 witness: the amended theorem applied at
`drowsiness = 80`, `attention = 90`. -/
theorem c1_witness :
    (70 : ℚ) < 80 ∧ (70 : ℚ) < 90 ∧
    (EEGSimulator.determineBrainState
      { attention := 90, relaxation := 50, drowsiness := 80, engagement := 50 }).label = "Drowsy" ∧
    (DatasetEEG.determineBrainState
      { attention := 90, relaxation := 50, drowsiness := 80, engagement := 50 }).label
      = "Highly Focused" := by
  refine ⟨by norm_num, by norm_num, ?_, ?_⟩
  · exact (c1_rule_order_amended _ (by norm_num) (by norm_num)).1
  · exact (c1_rule_order_amended _ (by norm_num) (by norm_num)).2

/-- C2.  The per-channel history buffer is a strict FIFO ring: any push
sequence from the empty buffer keeps the length at most the capacity, and
pushing more values than the capacity leaves exactly the most recent `cap`
values in insertion order (the suffix `drop (k - cap)`). -/
theorem c2_ring_buffer_fifo (cap : ℕ) (vs ws : List ℚ) (h : cap < ws.length) :
    (EEGSimulator.runPushes cap vs).length ≤ cap ∧
    EEGSimulator.runPushes cap ws = ws.drop (ws.length - cap) := by
  constructor
  · rw [runPushes_eq_drop, List.length_drop]; omega
  · exact runPushes_eq_drop cap ws

/-- C2 witness: pushing `[1,2,3,4]` into an empty capacity-2 buffer leaves
`[3,4]`. -/
theorem c2_witness :
    2 < ([1, 2, 3, 4] : List ℚ).length ∧
    (EEGSimulator.runPushes 2 [5, 6, 7]).length ≤ 2 ∧
    EEGSimulator.runPushes 2 [1, 2, 3, 4] = [3, 4] := by
  have h := c2_ring_buffer_fifo 2 [5, 6, 7] [1, 2, 3, 4] (by decide)
  refine ⟨by decide, h.1, ?_⟩
  rw [h.2]
  decide

/-- C4.  Dataset replay is cyclic: each dataset tick returns the row at the
cursor and advances the cursor to `(cursor + 1) % rows.length`, so after `n`
ticks from the initial cursor `0` the cursor is `n % rows.length`, wrapping
forever. -/
theorem c4_dataset_replay_cyclic (rows : List DatasetEEG.DatasetRow) (c n : ℕ)
    (h : 0 < rows.length) :
    (DatasetEEG.datasetStep rows c).2 = (c + 1) % rows.length ∧
    DatasetEEG.cursorAfter rows.length n = n % rows.length := by
  refine ⟨rfl, ?_⟩
  induction n with
  | zero => simp [DatasetEEG.cursorAfter]
  | succ k ih =>
    simp only [DatasetEEG.cursorAfter]
    rw [ih]
    simp [Nat.add_mod]

/-- C4 witness: with 3 rows the cursor visits `0,1,2,0,1` over the first
five ticks and is `2` on the sixth. -/
theorem c4_witness :
    0 < ([DatasetEEG.defaultRow, DatasetEEG.defaultRow, DatasetEEG.defaultRow]).length ∧
    [DatasetEEG.cursorAfter 3 0, DatasetEEG.cursorAfter 3 1, DatasetEEG.cursorAfter 3 2,
      DatasetEEG.cursorAfter 3 3, DatasetEEG.cursorAfter 3 4] = [0, 1, 2, 0, 1] ∧
    DatasetEEG.cursorAfter 3 5 = 2 := by
  have h := c4_dataset_replay_cyclic
    [DatasetEEG.defaultRow, DatasetEEG.defaultRow, DatasetEEG.defaultRow] 0 5 (by decide)
  exact ⟨by decide, by decide, h.2.trans (by decide)⟩

/-- C5.  The simulated generators clamp every channel to `[0, 100]`
regardless of the base value and of how large the sine-wave and noise
contributions are: `generateEEGValue` of `EEGSimulator.tsx` and
`generateRandomEEG` of `part_000` both land in bounds for all inputs. -/
theorem c5_generator_clamped (b sw ss r : ℚ) (prev : EEGData) (r1 r2 r3 r4 : ℚ) :
    (0 ≤ EEGSimulator.generateEEGValue b sw ss r ∧
      EEGSimulator.generateEEGValue b sw ss r ≤ 100) ∧
    inBounds (DatasetEEG.generateRandomEEG prev r1 r2 r3 r4) := by
  constructor
  · exact clamp_bounds _
  · unfold inBounds
    exact ⟨(clamp_bounds _).1, (clamp_bounds _).2, (clamp_bounds _).1, (clamp_bounds _).2,
      (clamp_bounds _).1, (clamp_bounds _).2, (clamp_bounds _).1, (clamp_bounds _).2⟩

/-- C3.  The claim as frozen is refuted by the dataset branch: the upload
filter of `part_000` accepts any row whose four channel fields parse to
numbers, with no range check, and the dataset tick passes the values through
unclamped — a row with `attention = 150` is accepted and delivered
unchanged, outside `[0, 100]`. -/
theorem c3_counterexample :
    DatasetEEG.acceptRow
        { attention := some 150, relaxation := some 50, drowsiness := some 50,
          engagement := some 50, timestamp := none }
      = some { attention := 150, relaxation := 50, drowsiness := 50,
               engagement := 50, timestamp := none } ∧
    (DatasetEEG.datasetStep
        [{ attention := 150, relaxation := 50, drowsiness := 50,
           engagement := 50, timestamp := none }] 0).1.attention = 150 ∧
    ¬ inBounds (DatasetEEG.datasetStep
        [{ attention := 150, relaxation := 50, drowsiness := 50,
           engagement := 50, timestamp := none }] 0).1 := by
  exact ⟨rfl, rfl, by decide⟩

/-- C3 (amended).  Samples produced in simulated mode are clamped into
`[0, 100]`; samples produced in dataset mode carry the uploaded row's
channel values verbatim (rows are filtered only for the presence of the
four numeric fields, never for range), so they stay in `[0, 100]` only when
the uploaded data does. -/
theorem c3_sample_bounds_amended (prev : EEGData) (r1 r2 r3 r4 : ℚ)
    (rows : List DatasetEEG.DatasetRow) (c : ℕ) (h : c < rows.length) :
    inBounds (DatasetEEG.generateRandomEEG prev r1 r2 r3 r4) ∧
    (DatasetEEG.datasetStep rows c).1 = DatasetEEG.ofRow (rows.get ⟨c, h⟩) := by
  constructor
  · unfold inBounds
    exact ⟨(clamp_bounds _).1, (clamp_bounds _).2, (clamp_bounds _).1, (clamp_bounds _).2,
      (clamp_bounds _).1, (clamp_bounds _).2, (clamp_bounds _).1, (clamp_bounds _).2⟩
  · have hg : rows.getD c DatasetEEG.defaultRow = rows.get ⟨c, h⟩ := by
      simp [List.getD_eq_getElem, h]
    exact congrArg DatasetEEG.ofRow hg

/-- C3 witness: the amended theorem applied to the initial sample, draws of
`1/2`, and a one-row dataset. -/
theorem c3_witness :
    (0 : ℕ) < [DatasetEEG.defaultRow].length ∧
    inBounds (DatasetEEG.generateRandomEEG
      { attention := 50, relaxation := 50, drowsiness := 20, engagement := 50 }
      (1/2) (1/2) (1/2) (1/2)) ∧
    (DatasetEEG.datasetStep [DatasetEEG.defaultRow] 0).1 =
      DatasetEEG.ofRow ([DatasetEEG.defaultRow].get ⟨0, Nat.one_pos⟩) := by
  have h := c3_sample_bounds_amended
    { attention := 50, relaxation := 50, drowsiness := 20, engagement := 50 }
    (1/2) (1/2) (1/2) (1/2) [DatasetEEG.defaultRow] 0 Nat.one_pos
  exact ⟨Nat.one_pos, h.1, h.2⟩

/-- C6.  When the model is unavailable or the inference call fails, the
source returns a simulated/default fallback result instead of propagating
the error: `detectFacialEmotion` is total, returns the simulated fallback
record whenever `facialModel` is null (for every call outcome), and returns
the neutral default from its catch block when the call rejects.  No analysis
tick emits a toast in any branch, while one run of `initModels` (guarded to
run once per mount) emits exactly one toast per outcome — in particular
exactly one destructive "Model Loading Failed" toast on the failure
transition. -/
theorem c6_failure_fallback (hs uA mR mL : Bool) (ei : ℕ) (rc re ra : ℚ)
    (o : Except Unit (String × ℚ)) (fi : ℕ) (f1 f2 : ℚ)
    (oc : EmotionDetection.InitOutcome) :
    (EmotionDetection.analyzeFrame hs uA mR mL ei rc re ra o fi f1 f2).2 = [] ∧
    EmotionDetection.detectFacialEmotion false ei rc re ra o =
      { emotion := EmotionDetection.fallbackEmotions.getD
          (ei % EmotionDetection.fallbackEmotions.length) "neutral"
        confidence := rc * (3/10) + 7/10
        engagement := fallbackEngagement re
        attention := fallbackAttention ra } ∧
    EmotionDetection.detectFacialEmotion true ei rc re ra (Except.error ()) =
      { emotion := "neutral", confidence := 1/2, engagement := 70, attention := 75 } ∧
    (EmotionDetection.initModelToasts oc).length = 1 ∧
    EmotionDetection.initModelToasts EmotionDetection.InitOutcome.failed =
      [{ title := "Model Loading Failed", isDestructive := true }] := by
  refine ⟨?_, rfl, rfl, ?_, rfl⟩
  · unfold EmotionDetection.analyzeFrame
    by_cases h1 : hs = false
    · rw [if_pos h1]
    · rw [if_neg h1]
      by_cases h2 : uA = true ∧ mR = true
      · rw [if_pos h2]
      · rw [if_neg h2]
  · cases oc <;> rfl

/-- C7.  The claim as frozen is refuted by `stopCamera` of
`src/src/components/CameraEmotionAnalyzer.tsx`: stopping from a state whose
last tick produced `emotion = "happy"`, `engagement = 85`, `attention = 92`
resets the readings to the neutral defaults instead of retaining them. -/
theorem c7_counterexample :
    Camera.stopCamera
        { isActive := true, emotion := "happy", engagement := 85, attention := 92 } =
      { isActive := false, emotion := "neutral", engagement := 0, attention := 0 } ∧
    ("neutral" : String) ≠ "happy" := by
  exact ⟨rfl, by decide⟩

/-- C7 (amended).  In the EEG simulator, stopping via `toggleSimulation`
leaves `eegData`, `brainState` and the buffers unchanged (only the running
flag flips), and only `resetSimulation` restores the neutral defaults; in
the camera analyzer, however, `stopCamera` itself resets
`emotion`/`engagement`/`attention` to the neutral defaults rather than
retaining the last tick's values. -/
theorem c7_stop_vs_reset_amended (s : EEGSimulator.SimulatorState)
    (c : Camera.CameraState) :
    (EEGSimulator.toggleSimulation s).eegData = s.eegData ∧
    (EEGSimulator.toggleSimulation s).brainState = s.brainState ∧
    (EEGSimulator.toggleSimulation s).buffers = s.buffers ∧
    (EEGSimulator.toggleSimulation s).isRunning = !s.isRunning ∧
    EEGSimulator.resetSimulation s = EEGSimulator.initialState ∧
    Camera.stopCamera c =
      { isActive := false, emotion := "neutral", engagement := 0, attention := 0 } := by
  exact ⟨rfl, rfl, rfl, rfl, rfl, rfl⟩

/-- C8.  The claim as frozen is refuted by `toggleMode` of
`src/unnamed/part_000`: switching the source from a reachable state whose
attention buffer holds `[42]` leaves that buffer untouched and non-empty. -/
theorem c8_counterexample :
    (DatasetEEG.toggleMode DatasetEEG.sampleDatasetState).buffers.attention = [42] ∧
    ([42] : List ℚ) ≠ [] := by
  exact ⟨rfl, by decide⟩

/-- C8 (amended).  With a non-empty dataset loaded, `toggleMode` flips the
source mode and resets the dataset cursor to `0`, but it does not clear the
per-channel history buffers: they keep their contents across the switch. -/
theorem c8_toggle_keeps_buffers_amended (s : DatasetEEG.DatasetSimState)
    (h : 0 < s.uploadedDataset.length) :
    (DatasetEEG.toggleMode s).buffers = s.buffers ∧
    (DatasetEEG.toggleMode s).mode = DatasetEEG.flipMode s.mode ∧
    (DatasetEEG.toggleMode s).datasetIndex = 0 := by
  unfold DatasetEEG.toggleMode
  rw [if_pos h]
  exact ⟨rfl, rfl, rfl⟩

/-- C8 witness: the amended theorem applied at the concrete reachable
state. -/
theorem c8_witness :
    0 < DatasetEEG.sampleDatasetState.uploadedDataset.length ∧
    (DatasetEEG.toggleMode DatasetEEG.sampleDatasetState).buffers =
      DatasetEEG.sampleDatasetState.buffers ∧
    (DatasetEEG.toggleMode DatasetEEG.sampleDatasetState).mode =
      DatasetEEG.flipMode DatasetEEG.sampleDatasetState.mode ∧
    (DatasetEEG.toggleMode DatasetEEG.sampleDatasetState).datasetIndex = 0 := by
  have h := c8_toggle_keeps_buffers_amended DatasetEEG.sampleDatasetState Nat.one_pos
  exact ⟨Nat.one_pos, h.1, h.2.1, h.2.2⟩

/-- C9.  The claim as frozen is refuted: the interval handler has no
in-flight guard, so two timer firings with the stream active and AI enabled
and no intervening resolution leave two inference calls in flight. -/
theorem c9_counterexample :
    (EmotionDetection.tickFire (EmotionDetection.tickFire
        { streamActive := true, aiActive := true, pending := 0 })).pending = 2 ∧
    ¬ (EmotionDetection.tickFire (EmotionDetection.tickFire
        { streamActive := true, aiActive := true, pending := 0 })).pending ≤ 1 := by
  exact ⟨rfl, by decide⟩

/-- C9 (amended).  Each timer firing with the stream active and AI detection
enabled unconditionally starts one more inference call — no tick is skipped
because of a pending call, so when inference latency exceeds the tick
interval, multiple calls are concurrently in flight. -/
theorem c9_no_skip_amended (s : EmotionDetection.SchedState)
    (h1 : s.streamActive = true) (h2 : s.aiActive = true) :
    (EmotionDetection.tickFire s).pending = s.pending + 1 := by
  unfold EmotionDetection.tickFire
  rw [if_pos ⟨h1, h2⟩]

/-- C9 witness: the amended theorem applied at the idle active state. -/
theorem c9_witness :
    ({ streamActive := true, aiActive := true, pending := 0 } :
        EmotionDetection.SchedState).streamActive = true ∧
    ({ streamActive := true, aiActive := true, pending := 0 } :
        EmotionDetection.SchedState).aiActive = true ∧
    (EmotionDetection.tickFire
      { streamActive := true, aiActive := true, pending := 0 }).pending = 0 + 1 := by
  exact ⟨rfl, rfl, c9_no_skip_amended _ rfl rfl⟩

/-- C10.  Whenever the model is unavailable and the simulated fallback
produces the metrics, the reported engagement is `⌊r·30⌋ + 70 ∈ [70, 99]`
and the reported attention is `⌊r·20⌋ + 80 ∈ [80, 99]` (integers, as the `ℤ`
codomain of the floor-based scores records) — never the full `[0, 100]`
scale. -/
theorem c10_fallback_metric_ranges (ei : ℕ) (rc re ra : ℚ)
    (o : Except Unit (String × ℚ))
    (h1 : 0 ≤ re) (h2 : re < 1) (h3 : 0 ≤ ra) (h4 : ra < 1) :
    (EmotionDetection.detectFacialEmotion false ei rc re ra o).engagement =
      fallbackEngagement re ∧
    (EmotionDetection.detectFacialEmotion false ei rc re ra o).attention =
      fallbackAttention ra ∧
    70 ≤ fallbackEngagement re ∧ fallbackEngagement re ≤ 99 ∧
    80 ≤ fallbackAttention ra ∧ fallbackAttention ra ≤ 99 := by
  refine ⟨rfl, rfl, ?_, ?_, ?_, ?_⟩
  · unfold fallbackEngagement
    have hf : (0 : ℤ) ≤ ⌊re * 30⌋ := Int.floor_nonneg.mpr (by positivity)
    omega
  · unfold fallbackEngagement
    have hf : ⌊re * 30⌋ < 30 := Int.floor_lt.mpr (by push_cast; nlinarith)
    omega
  · unfold fallbackAttention
    have hf : (0 : ℤ) ≤ ⌊ra * 20⌋ := Int.floor_nonneg.mpr (by positivity)
    omega
  · unfold fallbackAttention
    have hf : ⌊ra * 20⌋ < 20 := Int.floor_lt.mpr (by push_cast; nlinarith)
    omega

/-- C10 witness: the theorem applied at random draws of `1/2`. -/
theorem c10_witness :
    (0 : ℚ) ≤ 1/2 ∧ (1/2 : ℚ) < 1 ∧
    70 ≤ fallbackEngagement (1/2) ∧ fallbackEngagement (1/2) ≤ 99 ∧
    80 ≤ fallbackAttention (1/2) ∧ fallbackAttention (1/2) ≤ 99 := by
  have h := c10_fallback_metric_ranges 0 0 (1/2) (1/2) (Except.error ())
    (by norm_num) (by norm_num) (by norm_num) (by norm_num)
  exact ⟨by norm_num, by norm_num, h.2.2.1, h.2.2.2.1, h.2.2.2.2.1, h.2.2.2.2.2⟩

end CyberCognito
